import Mathlib

/-!
Verification of the command verifier in labchat/visausb.py.

The development shallowly embeds the communication layer of the
VisaUsbInstrument class: the methods write, read, query and the
positive-feedback routine _set_with_check.  Stateful code is embedded as
explicit state passing over a device state DState; wall-clock time is a
rational clock advanced by the sleeps the code performs; the physical
device is an oracle Env giving the outcome of every physical read and
write; Python exceptions become an explicit error type threaded through
Except.  Every definition is translated from the source file; the model
of the Python builtin float (used as a transform by callers) is the one
exception and is documented at its definition.
-/

deriving instance DecidableEq for Except

namespace LabChat

/-- Python exceptions raised by the communication layer: IOError and
ValueError, carrying their message. -/
inductive Err where
  | ioError (msg : String)
  | valueError (msg : String)
deriving DecidableEq

/-- Python values that appear as the result of a transform or as the
expected result of a verification: raw strings, or numbers (the model
used for Python floats on the decimal literals exercised here). -/
inductive PyVal where
  | str (s : String)
  | rat (q : ℚ)
deriving DecidableEq

/-- Call sites of time.sleep in the source, used to tag sleep events in
the trace: the settle pause between set and query, the pause before the
forced re-query on an empty response, the inter-loop pause, and the pause
between the two physical read tries inside read. -/
inductive SleepSite where
  | settle
  | emptyRetry
  | interLoop
  | readRetry
deriving DecidableEq

/-- Observable events of an execution: a physical write of a command
string, a physical read attempt (none models a visa.VisaIOError read
timeout, some r a raw response r), and a sleep with its site and
duration in seconds. -/
inductive Ev where
  | write (command : String)
  | readAttempt (result : Option String)
  | sleep (site : SleepSite) (duration : ℚ)
deriving DecidableEq

/-- The state threaded through an execution: the wall clock in seconds,
the number of physical reads and writes performed so far (indices into
the device oracle), and the trace of events. -/
structure DState where
  clock : ℚ
  reads : ℕ
  writes : ℕ
  log : List Ev
deriving DecidableEq

/-- The initial state: clock zero, no reads, no writes, empty trace. -/
def DState.init : DState := ⟨0, 0, 0, []⟩

/-- The device oracle: readResult n is the outcome of the n-th physical
read (none models a visa.VisaIOError timeout), writeOk n tells whether
the n-th physical write succeeds (false models a visa.VisaIOError). -/
structure Env where
  readResult : ℕ → Option String
  writeOk : ℕ → Bool

/-- Embedding of time.sleep: advances the clock and logs the event. -/
def sleep (site : SleepSite) (d : ℚ) (s : DState) : DState :=
  { s with clock := s.clock + d, log := s.log ++ [Ev.sleep site d] }

/-- The character class stripped by the Python str.rstrip method with no
argument: ASCII whitespace including vertical tab and form feed. -/
def pyIsSpace (c : Char) : Bool :=
  c = ' ' || c = '\t' || c = '\n' || c = '\r' || c = '\x0b' || c = '\x0c'

/-- Embedding of the Python str.rstrip method: drops trailing whitespace
characters. -/
def rstrip (s : String) : String :=
  String.mk ((s.data.reverse.dropWhile pyIsSpace).reverse)

/-- Constant pause_between_loops of _set_with_check: 100e-3 seconds. -/
def pause_between_loops : ℚ := 1/10

/-- Constant pause_between_set_and_query of _set_with_check: 25e-3
seconds. -/
def pause_between_set_and_query : ℚ := 1/40

/-- Constant pause_between_tries of VisaUsbInstrument.read: 100e-3
seconds. -/
def pause_between_tries : ℚ := 1/10

namespace VisaUsb

/-- Embedding of VisaUsbInstrument.write: raises IOError when the
connection is closed; a visa.VisaIOError from the underlying device
write is converted to a ValueError; otherwise the write is performed and
logged. -/
def write (env : Env) (is_open : Bool) (command : String) (s : DState) :
    Except Err DState :=
  if is_open = false then
    Except.error (Err.ioError "Communication to the instrument is closed")
  else if env.writeOk s.writes then
    Except.ok { s with writes := s.writes + 1, log := s.log ++ [Ev.write command] }
  else
    Except.error (Err.valueError "Command timed out; most likely it is not a valid command")

/-- Embedding of VisaUsbInstrument.read: raises IOError when the
connection is closed; on a read timeout sleeps pause_between_tries and
retries once, yielding the empty string when the second read also times
out; the returned string is rstripped. -/
def read (env : Env) (is_open : Bool) (s : DState) :
    Except Err (String × DState) :=
  if is_open = false then
    Except.error (Err.ioError "Communication to instrument is closed")
  else
    match env.readResult s.reads with
    | some out =>
        Except.ok (rstrip out,
          { s with reads := s.reads + 1, log := s.log ++ [Ev.readAttempt (some out)] })
    | none =>
        let s1 := sleep SleepSite.readRetry pause_between_tries
          { s with reads := s.reads + 1, log := s.log ++ [Ev.readAttempt none] }
        match env.readResult s1.reads with
        | some out =>
            Except.ok (rstrip out,
              { s1 with reads := s1.reads + 1, log := s1.log ++ [Ev.readAttempt (some out)] })
        | none =>
            Except.ok (rstrip "",
              { s1 with reads := s1.reads + 1, log := s1.log ++ [Ev.readAttempt none] })

/-- Embedding of VisaUsbInstrument.query: a write of the query command
followed by a read. -/
def query (env : Env) (is_open : Bool) (command : String) (s : DState) :
    Except Err (String × DState) :=
  match write env is_open command s with
  | Except.error e => Except.error e
  | Except.ok s1 => read env is_open s1

/-- Embedding of the line of _set_with_check guarded by
`if transform is not None`: when a transform is given it is applied to
the readback (and may raise); otherwise the raw string is the compared
value. -/
def transformApply (transform : Option (String → Except Err PyVal))
    (out : String) : Except Err PyVal :=
  match transform with
  | some f => f out
  | none => Except.ok (PyVal.str out)

/-- One iteration of the _set_with_check loop body: write the command,
sleep the settle pause, query; if the response is empty sleep
pause_between_loops and query once more; apply the transform and compare
with hard equality, returning the boolean outcome and the new state. -/
def attemptSet (env : Env) (is_open : Bool) (cmd qry : String)
    (result : PyVal) (transform : Option (String → Except Err PyVal))
    (s : DState) : Except Err (Bool × DState) :=
  match write env is_open cmd s with
  | Except.error e => Except.error e
  | Except.ok s1 =>
    match query env is_open qry (sleep SleepSite.settle pause_between_set_and_query s1) with
    | Except.error e => Except.error e
    | Except.ok (out, s3) =>
      match (if out = "" then
               query env is_open qry (sleep SleepSite.emptyRetry pause_between_loops s3)
             else Except.ok (out, s3)) with
      | Except.error e => Except.error e
      | Except.ok (out2, s5) =>
        match transformApply transform out2 with
        | Except.error e => Except.error e
        | Except.ok v => Except.ok (decide (v = result), s5)

/-- The while loop of _set_with_check, with an explicit fuel bound on
the number of iterations (none means the fuel ran out): after a failed
comparison the elapsed time since t0 is compared strictly against the
timeout; on failure the loop returns false, otherwise it sleeps
pause_between_loops and repeats the whole cycle. -/
def setLoop (env : Env) (is_open : Bool) (cmd qry : String) (result : PyVal)
    (transform : Option (String → Except Err PyVal)) (timeout t0 : ℚ) :
    ℕ → DState → Option (Except Err (Bool × DState))
  | 0, _ => none
  | fuel + 1, s =>
    match attemptSet env is_open cmd qry result transform s with
    | Except.error e => some (Except.error e)
    | Except.ok (true, s') => some (Except.ok (true, s'))
    | Except.ok (false, s') =>
      if s'.clock - t0 > timeout then some (Except.ok (false, s'))
      else setLoop env is_open cmd qry result transform timeout t0 fuel
        (sleep SleepSite.interLoop pause_between_loops s')

/-- Fuel sufficient for the loop to reach its own timeout decision: each
iteration advances the clock by at least pause_between_set_and_query,
one fortieth of a second. -/
def fuelBound (timeout : ℚ) : ℕ := 40 * timeout.num.toNat + 1

/-- Embedding of VisaUsbInstrument._set_with_check: records the start
time and runs the verification loop with enough fuel for its timeout. -/
def set_with_check (env : Env) (is_open : Bool) (cmd qry : String)
    (result : PyVal) (transform : Option (String → Except Err PyVal))
    (timeout : ℚ) (s : DState) : Option (Except Err (Bool × DState)) :=
  setLoop env is_open cmd qry result transform timeout s.clock
    (fuelBound timeout) s

end VisaUsb

/-- Model of the Python builtin float conversion restricted to plain
decimal literals, which is how the specification scenarios use it as a
transform: an optional sign, integer digits, an optional fractional
part.  The value is represented exactly as a rational; on the literals
appearing in the scenarios (1000.0, 3.300000, 3.3 and the empty string)
exact rational equality agrees with Python float equality.  An
unparsable string, in particular the empty string, raises ValueError
exactly as float does. -/
def parseUnsigned (l : List Char) : Option ℚ :=
  let intPart := l.takeWhile Char.isDigit
  let rest := l.dropWhile Char.isDigit
  match rest with
  | [] => if intPart.isEmpty then none else
      some ((intPart.foldl (fun a c => 10 * a + (c.toNat - 48)) 0 : ℕ) : ℚ)
  | '.' :: fr =>
      if fr.all Char.isDigit && (!intPart.isEmpty || !fr.isEmpty) then
        some (((intPart.foldl (fun a c => 10 * a + (c.toNat - 48)) 0 : ℕ) : ℚ)
          + ((fr.foldl (fun a c => 10 * a + (c.toNat - 48)) 0 : ℕ) : ℚ) / (10 ^ fr.length : ℚ))
      else none
  | _ => none

/-- Sign handling of the float model. -/
def parseDecimal (l : List Char) : Option ℚ :=
  match l with
  | '-' :: rest => (parseUnsigned rest).map Neg.neg
  | '+' :: rest => parseUnsigned rest
  | _ => parseUnsigned l

/-- The float transform itself: parse to an exact rational or raise
ValueError, as the Python builtin float does on a bad literal. -/
def pyFloat (s : String) : Except Err PyVal :=
  match parseDecimal s.data with
  | some q => Except.ok (PyVal.rat q)
  | none => Except.error (Err.valueError "could not convert string to float")

/-- The set of strings the read method can hand back to its callers:
either the empty string (a silent device) or the rstrip of a raw
response the device oracle can produce. -/
def possibleOut (env : Env) (out : String) : Prop :=
  out = "" ∨ ∃ n r, env.readResult n = some r ∧ out = rstrip r

/-! ### Helper lemmas about rstrip and the trace state -/

lemma dropWhile_dropWhile (p : Char → Bool) (l : List Char) :
    (l.dropWhile p).dropWhile p = l.dropWhile p := by
  induction l with
  | nil => rfl
  | cons a t ih => cases h : p a <;> simp [List.dropWhile, h, ih]

lemma rstrip_idem (s : String) : rstrip (rstrip s) = rstrip s := by
  unfold rstrip
  simp [dropWhile_dropWhile]

@[simp] lemma rstrip_empty : rstrip "" = "" := rfl

@[simp] lemma sleep_clock (site : SleepSite) (d : ℚ) (s : DState) :
    (sleep site d s).clock = s.clock + d := rfl

@[simp] lemma sleep_reads (site : SleepSite) (d : ℚ) (s : DState) :
    (sleep site d s).reads = s.reads := rfl

@[simp] lemma sleep_writes (site : SleepSite) (d : ℚ) (s : DState) :
    (sleep site d s).writes = s.writes := rfl

@[simp] lemma sleep_log (site : SleepSite) (d : ℚ) (s : DState) :
    (sleep site d s).log = s.log ++ [Ev.sleep site d] := rfl

namespace VisaUsb

/-! ### Equation lemmas for the transport layer -/

lemma write_ok (env : Env) (cmd : String) (s : DState)
    (hw : env.writeOk s.writes = true) :
    write env true cmd s =
      Except.ok ⟨s.clock, s.reads, s.writes + 1, s.log ++ [Ev.write cmd]⟩ := by
  simp [write, hw]

lemma write_closed (env : Env) (cmd : String) (s : DState) :
    write env false cmd s =
      Except.error (Err.ioError "Communication to the instrument is closed") := by
  simp [write]

lemma write_bad (env : Env) (cmd : String) (s : DState)
    (hw : env.writeOk s.writes = false) :
    write env true cmd s =
      Except.error
        (Err.valueError "Command timed out; most likely it is not a valid command") := by
  simp [write, hw]

lemma read_some (env : Env) (s : DState) (r : String)
    (hr : env.readResult s.reads = some r) :
    read env true s =
      Except.ok (rstrip r,
        ⟨s.clock, s.reads + 1, s.writes, s.log ++ [Ev.readAttempt (some r)]⟩) := by
  simp [read, hr]

lemma read_none_some (env : Env) (s : DState) (r : String)
    (hr0 : env.readResult s.reads = none)
    (hr1 : env.readResult (s.reads + 1) = some r) :
    read env true s =
      Except.ok (rstrip r,
        ⟨s.clock + pause_between_tries, s.reads + 2, s.writes,
          s.log ++ [Ev.readAttempt none,
            Ev.sleep SleepSite.readRetry pause_between_tries,
            Ev.readAttempt (some r)]⟩) := by
  simp [read, hr0, hr1, sleep]

lemma read_none_none (env : Env) (s : DState)
    (hr0 : env.readResult s.reads = none)
    (hr1 : env.readResult (s.reads + 1) = none) :
    read env true s =
      Except.ok ("",
        ⟨s.clock + pause_between_tries, s.reads + 2, s.writes,
          s.log ++ [Ev.readAttempt none,
            Ev.sleep SleepSite.readRetry pause_between_tries,
            Ev.readAttempt none]⟩) := by
  simp [read, hr0, hr1, sleep]

/-! ### Equation lemmas for one attempt of the verification loop -/

lemma attempt_closed (env : Env) (cmd qry : String) (result : PyVal)
    (transform : Option (String → Except Err PyVal)) (s : DState) :
    attemptSet env false cmd qry result transform s =
      Except.error (Err.ioError "Communication to the instrument is closed") := by
  simp [attemptSet, write]

/-- One attempt in which the first physical read already produces a
nonempty response whose transform equals the expected result: the
attempt succeeds after one write of the command, the settle pause, one
write of the query and one physical read. -/
lemma attempt_match_first (env : Env) (cmd qry : String) (result : PyVal)
    (transform : Option (String → Except Err PyVal)) (s : DState) (r0 : String)
    (hw0 : env.writeOk s.writes = true)
    (hw1 : env.writeOk (s.writes + 1) = true)
    (hr : env.readResult s.reads = some r0)
    (hne : rstrip r0 ≠ "")
    (ht : transformApply transform (rstrip r0) = Except.ok result) :
    attemptSet env true cmd qry result transform s =
      Except.ok (true,
        ⟨s.clock + pause_between_set_and_query, s.reads + 1, s.writes + 2,
          s.log ++ [Ev.write cmd,
            Ev.sleep SleepSite.settle pause_between_set_and_query,
            Ev.write qry, Ev.readAttempt (some r0)]⟩) := by
  simp [attemptSet, query, write, read, sleep, hw0, hw1, hr, hne, ht]

/-- One attempt in which the first physical read produces a nonempty
response whose transform succeeds: the attempt returns the outcome of
the hard equality comparison between the transformed value and the
expected result. -/
lemma attempt_first_outcome (env : Env) (cmd qry : String) (result v : PyVal)
    (transform : Option (String → Except Err PyVal)) (s : DState) (r0 : String)
    (hw0 : env.writeOk s.writes = true)
    (hw1 : env.writeOk (s.writes + 1) = true)
    (hr : env.readResult s.reads = some r0)
    (hne : rstrip r0 ≠ "")
    (ht : transformApply transform (rstrip r0) = Except.ok v) :
    attemptSet env true cmd qry result transform s =
      Except.ok (decide (v = result),
        ⟨s.clock + pause_between_set_and_query, s.reads + 1, s.writes + 2,
          s.log ++ [Ev.write cmd,
            Ev.sleep SleepSite.settle pause_between_set_and_query,
            Ev.write qry, Ev.readAttempt (some r0)]⟩) := by
  simp [attemptSet, query, write, read, sleep, hw0, hw1, hr, hne, ht]

/-- One attempt in which the first physical read produces a response
that rstrips to the empty string, and the forced second query within the
same attempt produces a response whose transform equals the expected
result: the attempt succeeds, having written the query exactly twice. -/
lemma attempt_empty_then_match (env : Env) (cmd qry : String) (result : PyVal)
    (transform : Option (String → Except Err PyVal)) (s : DState) (e0 r1 : String)
    (hw0 : env.writeOk s.writes = true)
    (hw1 : env.writeOk (s.writes + 1) = true)
    (hw2 : env.writeOk (s.writes + 2) = true)
    (hr0 : env.readResult s.reads = some e0)
    (he : rstrip e0 = "")
    (hr1 : env.readResult (s.reads + 1) = some r1)
    (ht : transformApply transform (rstrip r1) = Except.ok result) :
    attemptSet env true cmd qry result transform s =
      Except.ok (true,
        ⟨s.clock + pause_between_set_and_query + pause_between_loops,
          s.reads + 2, s.writes + 3,
          s.log ++ [Ev.write cmd,
            Ev.sleep SleepSite.settle pause_between_set_and_query,
            Ev.write qry, Ev.readAttempt (some e0),
            Ev.sleep SleepSite.emptyRetry pause_between_loops,
            Ev.write qry, Ev.readAttempt (some r1)]⟩) := by
  simp [attemptSet, query, write, read, sleep, hw0, hw1, hw2, hr0, he, hr1, ht]

/-! ### Unfolding lemmas for the verification loop -/

lemma setLoop_zero (env : Env) (is_open : Bool) (cmd qry : String)
    (result : PyVal) (transform : Option (String → Except Err PyVal))
    (timeout t0 : ℚ) (s : DState) :
    setLoop env is_open cmd qry result transform timeout t0 0 s = none := rfl

lemma setLoop_succ (env : Env) (is_open : Bool) (cmd qry : String)
    (result : PyVal) (transform : Option (String → Except Err PyVal))
    (timeout t0 : ℚ) (fuel : ℕ) (s : DState) :
    setLoop env is_open cmd qry result transform timeout t0 (fuel + 1) s =
      match attemptSet env is_open cmd qry result transform s with
      | Except.error e => some (Except.error e)
      | Except.ok (true, s') => some (Except.ok (true, s'))
      | Except.ok (false, s') =>
        if s'.clock - t0 > timeout then some (Except.ok (false, s'))
        else setLoop env is_open cmd qry result transform timeout t0 fuel
          (sleep SleepSite.interLoop pause_between_loops s') := rfl

lemma setLoop_succ_error (env : Env) (is_open : Bool) (cmd qry : String)
    (result : PyVal) (transform : Option (String → Except Err PyVal))
    (timeout t0 : ℚ) (fuel : ℕ) (s : DState) (e : Err)
    (ha : attemptSet env is_open cmd qry result transform s = Except.error e) :
    setLoop env is_open cmd qry result transform timeout t0 (fuel + 1) s =
      some (Except.error e) := by
  rw [setLoop_succ, ha]

lemma setLoop_succ_true (env : Env) (is_open : Bool) (cmd qry : String)
    (result : PyVal) (transform : Option (String → Except Err PyVal))
    (timeout t0 : ℚ) (fuel : ℕ) (s s' : DState)
    (ha : attemptSet env is_open cmd qry result transform s = Except.ok (true, s')) :
    setLoop env is_open cmd qry result transform timeout t0 (fuel + 1) s =
      some (Except.ok (true, s')) := by
  rw [setLoop_succ, ha]

lemma setLoop_succ_false_stop (env : Env) (is_open : Bool) (cmd qry : String)
    (result : PyVal) (transform : Option (String → Except Err PyVal))
    (timeout t0 : ℚ) (fuel : ℕ) (s s' : DState)
    (ha : attemptSet env is_open cmd qry result transform s = Except.ok (false, s'))
    (hc : s'.clock - t0 > timeout) :
    setLoop env is_open cmd qry result transform timeout t0 (fuel + 1) s =
      some (Except.ok (false, s')) := by
  rw [setLoop_succ, ha]
  simp [hc]

lemma setLoop_succ_false_cont (env : Env) (is_open : Bool) (cmd qry : String)
    (result : PyVal) (transform : Option (String → Except Err PyVal))
    (timeout t0 : ℚ) (fuel : ℕ) (s s' : DState)
    (ha : attemptSet env is_open cmd qry result transform s = Except.ok (false, s'))
    (hc : ¬ (s'.clock - t0 > timeout)) :
    setLoop env is_open cmd qry result transform timeout t0 (fuel + 1) s =
      setLoop env is_open cmd qry result transform timeout t0 fuel
        (sleep SleepSite.interLoop pause_between_loops s') := by
  rw [setLoop_succ, ha]
  simp [hc]

lemma set_with_check_eq (env : Env) (is_open : Bool) (cmd qry : String)
    (result : PyVal) (transform : Option (String → Except Err PyVal))
    (timeout : ℚ) (s : DState) :
    set_with_check env is_open cmd qry result transform timeout s =
      setLoop env is_open cmd qry result transform timeout s.clock
        (40 * timeout.num.toNat + 1) s := rfl

/-! ### What a successful query guarantees -/

lemma query_ok_spec (env : Env) (q : String) (s : DState) (out : String) (s' : DState)
    (h : query env true q s = Except.ok (out, s')) :
    possibleOut env out ∧ rstrip out = out ∧
    s.clock ≤ s'.clock ∧ s.reads ≤ s'.reads ∧ s'.reads ≤ s.reads + 2 ∧
    ∃ l, s'.log = s.log ++ (Ev.write q :: l) ∧
      ∀ e ∈ l, (∃ r, e = Ev.readAttempt r) ∨
        e = Ev.sleep SleepSite.readRetry pause_between_tries := by
  unfold query at h
  cases hw : env.writeOk s.writes
  case false =>
    rw [write_bad env q s hw] at h
    exact absurd h (by simp)
  case true =>
    rw [write_ok env q s hw] at h
    dsimp only at h
    cases h0 : env.readResult s.reads
    case some r =>
      rw [read_some env ⟨s.clock, s.reads, s.writes + 1, s.log ++ [Ev.write q]⟩ r h0] at h
      obtain ⟨h1, h2⟩ : rstrip r = out ∧ _ = s' := by simpa using h
      subst h1
      subst h2
      dsimp only
      refine ⟨Or.inr ⟨s.reads, r, h0, rfl⟩, rstrip_idem r, le_refl _, ?_, ?_, ?_⟩
      · exact Nat.le_succ s.reads
      · omega
      · exact ⟨[Ev.readAttempt (some r)], by simp, by
          intro e he
          simp at he
          exact Or.inl ⟨some r, he⟩⟩
    case none =>
      cases h1 : env.readResult (s.reads + 1)
      case some r =>
        rw [read_none_some env ⟨s.clock, s.reads, s.writes + 1, s.log ++ [Ev.write q]⟩ r h0 h1] at h
        obtain ⟨hh1, hh2⟩ : rstrip r = out ∧ _ = s' := by simpa using h
        subst hh1
        subst hh2
        dsimp only
        refine ⟨Or.inr ⟨s.reads + 1, r, h1, rfl⟩, rstrip_idem r, ?_, ?_, ?_, ?_⟩
        · have : (0 : ℚ) ≤ pause_between_tries := by norm_num [pause_between_tries]
          linarith
        · exact Nat.le_add_right s.reads 2
        · exact le_refl _
        · refine ⟨[Ev.readAttempt none,
            Ev.sleep SleepSite.readRetry pause_between_tries,
            Ev.readAttempt (some r)], by simp, ?_⟩
          intro e he
          simp at he
          rcases he with he | he | he
          · exact Or.inl ⟨none, he⟩
          · exact Or.inr he
          · exact Or.inl ⟨some r, he⟩
      case none =>
        rw [read_none_none env ⟨s.clock, s.reads, s.writes + 1, s.log ++ [Ev.write q]⟩ h0 h1] at h
        obtain ⟨hh1, hh2⟩ : "" = out ∧ _ = s' := by simpa using h
        subst hh1
        subst hh2
        dsimp only
        refine ⟨Or.inl rfl, rfl, ?_, ?_, ?_, ?_⟩
        · have : (0 : ℚ) ≤ pause_between_tries := by norm_num [pause_between_tries]
          linarith
        · exact Nat.le_add_right s.reads 2
        · exact le_refl _
        · refine ⟨[Ev.readAttempt none,
            Ev.sleep SleepSite.readRetry pause_between_tries,
            Ev.readAttempt none], by simp, ?_⟩
          intro e he
          simp at he
          rcases he with he | he | he
          · exact Or.inl ⟨none, he⟩
          · exact Or.inr he
          · exact Or.inl ⟨none, he⟩

lemma pause_between_loops_nonneg : (0 : ℚ) ≤ pause_between_loops := by
  norm_num [pause_between_loops]

lemma pause_between_tries_nonneg : (0 : ℚ) ≤ pause_between_tries := by
  norm_num [pause_between_tries]

lemma pause_settle_pos : (0 : ℚ) < pause_between_set_and_query := by
  norm_num [pause_between_set_and_query]

lemma read_total (env : Env) (s : DState) :
    ∃ out s', read env true s = Except.ok (out, s') := by
  cases h0 : env.readResult s.reads
  case some r => exact ⟨_, _, read_some env s r h0⟩
  case none =>
    cases h1 : env.readResult (s.reads + 1)
    case some r => exact ⟨_, _, read_none_some env s r h0 h1⟩
    case none => exact ⟨_, _, read_none_none env s h0 h1⟩

lemma query_total (env : Env) (q : String) (s : DState)
    (hw : env.writeOk s.writes = true) :
    ∃ out s', query env true q s = Except.ok (out, s') := by
  unfold query
  rw [write_ok env q s hw]
  exact read_total env _

/-! ### What a completed attempt guarantees -/

/-- A completed attempt compared the transform of a possible device
response against the expected result; it advanced the clock by at least
the settle pause, performed at most four physical reads, and its trace
delta starts with a write of the command followed only by query writes,
read attempts and non-inter-loop sleeps. -/
lemma attempt_ok_spec (env : Env) (cmd qry : String) (result : PyVal)
    (transform : Option (String → Except Err PyVal)) (s : DState)
    (b : Bool) (s' : DState)
    (h : attemptSet env true cmd qry result transform s = Except.ok (b, s')) :
    ∃ out v, possibleOut env out ∧ rstrip out = out ∧
      transformApply transform out = Except.ok v ∧ b = decide (v = result) ∧
      s.clock + pause_between_set_and_query ≤ s'.clock ∧
      s.reads ≤ s'.reads ∧ s'.reads ≤ s.reads + 4 ∧
      ∃ l, s'.log = s.log ++ (Ev.write cmd :: l) ∧
        ∀ e ∈ l, e = Ev.write qry ∨ (∃ r, e = Ev.readAttempt r) ∨
          ∃ st d, e = Ev.sleep st d ∧ st ≠ SleepSite.interLoop := by
  unfold attemptSet at h
  cases hw : env.writeOk s.writes
  case false =>
    rw [write_bad env cmd s hw] at h
    exact absurd h (by simp)
  case true =>
    rw [write_ok env cmd s hw] at h
    dsimp only at h
    set s2 : DState := sleep SleepSite.settle pause_between_set_and_query
      ⟨s.clock, s.reads, s.writes + 1, s.log ++ [Ev.write cmd]⟩ with hs2
    have hs2c : s2.clock = s.clock + pause_between_set_and_query := rfl
    have hs2r : s2.reads = s.reads := rfl
    have hs2l : s2.log = (s.log ++ [Ev.write cmd]) ++
        [Ev.sleep SleepSite.settle pause_between_set_and_query] := rfl
    cases hq : query env true qry s2
    case error e =>
      rw [hq] at h
      exact absurd h (by simp)
    case ok p =>
      obtain ⟨out1, s3⟩ := p
      rw [hq] at h
      dsimp only at h
      obtain ⟨hp1, hp2, hp3, hp4, hp5, l1, hl1, hm1⟩ :=
        query_ok_spec env qry s2 out1 s3 hq
      by_cases hout : out1 = ""
      case pos =>
        rw [if_pos hout] at h
        set s4 : DState := sleep SleepSite.emptyRetry pause_between_loops s3 with hs4
        have hs4c : s4.clock = s3.clock + pause_between_loops := rfl
        have hs4r : s4.reads = s3.reads := rfl
        have hs4l : s4.log = s3.log ++ [Ev.sleep SleepSite.emptyRetry pause_between_loops] := rfl
        cases hq2 : query env true qry s4
        case error e =>
          rw [hq2] at h
          exact absurd h (by simp)
        case ok p2 =>
          obtain ⟨out2, s5⟩ := p2
          rw [hq2] at h
          dsimp only at h
          obtain ⟨hq1, hq2f, hq3, hq4, hq5, l2, hl2, hm2⟩ :=
            query_ok_spec env qry s4 out2 s5 hq2
          cases ht : transformApply transform out2
          case error e =>
            rw [ht] at h
            exact absurd h (by simp)
          case ok v =>
            rw [ht] at h
            dsimp only at h
            obtain ⟨hb, hs'⟩ : decide (v = result) = b ∧ s5 = s' := by simpa using h
            subst hs'
            refine ⟨out2, v, hq1, hq2f, ht, hb.symm, ?_, ?_, ?_, ?_⟩
            · have := pause_between_loops_nonneg
              rw [hs2c] at hp3
              rw [hs4c] at hq3
              linarith
            · rw [hs2r] at hp4
              rw [hs4r] at hq4
              omega
            · rw [hs2r] at hp5
              rw [hs4r] at hq5
              omega
            · refine ⟨Ev.sleep SleepSite.settle pause_between_set_and_query ::
                Ev.write qry :: (l1 ++ Ev.sleep SleepSite.emptyRetry pause_between_loops ::
                  Ev.write qry :: l2), ?_, ?_⟩
              · rw [hl2, hs4l, hl1, hs2l]
                simp
              · intro e he
                simp only [List.mem_cons, List.mem_append] at he
                rcases he with rfl | rfl | he | rfl | rfl | he
                · exact Or.inr (Or.inr ⟨SleepSite.settle, pause_between_set_and_query,
                    rfl, by simp⟩)
                · exact Or.inl rfl
                · rcases hm1 e he with ⟨r, rfl⟩ | rfl
                  · exact Or.inr (Or.inl ⟨r, rfl⟩)
                  · exact Or.inr (Or.inr ⟨SleepSite.readRetry, pause_between_tries,
                      rfl, by simp⟩)
                · exact Or.inr (Or.inr ⟨SleepSite.emptyRetry, pause_between_loops,
                    rfl, by simp⟩)
                · exact Or.inl rfl
                · rcases hm2 e he with ⟨r, rfl⟩ | rfl
                  · exact Or.inr (Or.inl ⟨r, rfl⟩)
                  · exact Or.inr (Or.inr ⟨SleepSite.readRetry, pause_between_tries,
                      rfl, by simp⟩)
      case neg =>
        rw [if_neg hout] at h
        dsimp only at h
        cases ht : transformApply transform out1
        case error e =>
          rw [ht] at h
          exact absurd h (by simp)
        case ok v =>
          rw [ht] at h
          dsimp only at h
          obtain ⟨hb, hs'⟩ : decide (v = result) = b ∧ s3 = s' := by simpa using h
          subst hs'
          refine ⟨out1, v, hp1, hp2, ht, hb.symm, ?_, ?_, ?_, ?_⟩
          · rw [hs2c] at hp3
            linarith
          · rw [hs2r] at hp4
            omega
          · rw [hs2r] at hp5
            omega
          · refine ⟨Ev.sleep SleepSite.settle pause_between_set_and_query ::
              Ev.write qry :: l1, ?_, ?_⟩
            · rw [hl1, hs2l]
              simp
            · intro e he
              simp only [List.mem_cons] at he
              rcases he with rfl | rfl | he
              · exact Or.inr (Or.inr ⟨SleepSite.settle, pause_between_set_and_query,
                  rfl, by simp⟩)
              · exact Or.inl rfl
              · rcases hm1 e he with ⟨r, rfl⟩ | rfl
                · exact Or.inr (Or.inl ⟨r, rfl⟩)
                · exact Or.inr (Or.inr ⟨SleepSite.readRetry, pause_between_tries,
                    rfl, by simp⟩)

/-- A failed attempt with a working transport can only come from the
transform raising on a possible device response. -/
lemma attempt_error_spec (env : Env) (cmd qry : String) (result : PyVal)
    (transform : Option (String → Except Err PyVal)) (s : DState) (e : Err)
    (hwAll : ∀ n, env.writeOk n = true)
    (h : attemptSet env true cmd qry result transform s = Except.error e) :
    ∃ out, possibleOut env out ∧ rstrip out = out ∧
      transformApply transform out = Except.error e := by
  unfold attemptSet at h
  rw [write_ok env cmd s (hwAll s.writes)] at h
  dsimp only at h
  set s2 : DState := sleep SleepSite.settle pause_between_set_and_query
    ⟨s.clock, s.reads, s.writes + 1, s.log ++ [Ev.write cmd]⟩ with hs2
  obtain ⟨out1, s3, hq⟩ := query_total env qry s2 (hwAll s2.writes)
  rw [hq] at h
  dsimp only at h
  obtain ⟨hp1, hp2, -, -, -, l1, -, -⟩ := query_ok_spec env qry s2 out1 s3 hq
  by_cases hout : out1 = ""
  case pos =>
    rw [if_pos hout] at h
    obtain ⟨out2, s5, hq2⟩ := query_total env qry
      (sleep SleepSite.emptyRetry pause_between_loops s3) (hwAll _)
    rw [hq2] at h
    dsimp only at h
    obtain ⟨hq1, hq2f, -, -, -, l2, -, -⟩ := query_ok_spec env qry _ out2 s5 hq2
    cases ht : transformApply transform out2
    case error e2 =>
      rw [ht] at h
      dsimp only at h
      obtain rfl : e2 = e := by simpa using h
      exact ⟨out2, hq1, hq2f, ht⟩
    case ok v =>
      rw [ht] at h
      exact absurd h (by simp)
  case neg =>
    rw [if_neg hout] at h
    dsimp only at h
    cases ht : transformApply transform out1
    case error e2 =>
      rw [ht] at h
      dsimp only at h
      obtain rfl : e2 = e := by simpa using h
      exact ⟨out1, hp1, hp2, ht⟩
    case ok v =>
      rw [ht] at h
      exact absurd h (by simp)

/-! ### Behaviour of the whole loop -/

/-- If the loop ran out of fuel, every iteration passed the elapsed-time
check, so the total fuel times the settle pause fits below the timeout:
used to show the chosen fuel bound always suffices. -/
lemma loop_none_bound (env : Env) (cmd qry : String) (result : PyVal)
    (transform : Option (String → Except Err PyVal)) (timeout t0 : ℚ) :
    ∀ fuel s, setLoop env true cmd qry result transform timeout t0 (fuel + 1) s = none →
      s.clock - t0 + ((fuel : ℚ) + 1) * pause_between_set_and_query ≤ timeout := by
  intro fuel
  induction fuel with
  | zero =>
    intro s h
    rw [setLoop_succ] at h
    cases ha : attemptSet env true cmd qry result transform s
    case error e =>
      rw [ha] at h
      exact absurd h (by simp)
    case ok p =>
      obtain ⟨b, s1⟩ := p
      rw [ha] at h
      cases b
      case true =>
        exact absurd h (by simp)
      case false =>
        dsimp only at h
        by_cases hc : s1.clock - t0 > timeout
        · rw [if_pos hc] at h
          exact absurd h (by simp)
        · push_neg at hc
          obtain ⟨out, v, -, -, -, -, hck, -, -, -, -, -⟩ :=
            attempt_ok_spec env cmd qry result transform s false s1 ha
          push_cast
          linarith
  | succ n ih =>
    intro s h
    rw [setLoop_succ] at h
    cases ha : attemptSet env true cmd qry result transform s
    case error e =>
      rw [ha] at h
      exact absurd h (by simp)
    case ok p =>
      obtain ⟨b, s1⟩ := p
      rw [ha] at h
      cases b
      case true =>
        exact absurd h (by simp)
      case false =>
        dsimp only at h
        by_cases hc : s1.clock - t0 > timeout
        · rw [if_pos hc] at h
          exact absurd h (by simp)
        · rw [if_neg hc] at h
          have hrec := ih (sleep SleepSite.interLoop pause_between_loops s1) h
          obtain ⟨out, v, -, -, -, -, hck, -, -, -, -, -⟩ :=
            attempt_ok_spec env cmd qry result transform s false s1 ha
          rw [sleep_clock] at hrec
          have hlp := pause_between_loops_nonneg
          have hexp : ((n : ℚ) + 1 + 1) * pause_between_set_and_query =
              ((n : ℚ) + 1) * pause_between_set_and_query + pause_between_set_and_query := by
            ring
          push_cast
          linarith

/-- When the transform of every possible response differs from the
expected result, the loop can only stop by timing out: it returns false,
the elapsed time strictly exceeds the timeout, and the trace delta holds
exactly one write of the command per iteration, that is one more than
the number of inter-loop sleeps. -/
lemma loop_never_match (env : Env) (cmd qry : String) (result : PyVal)
    (transform : Option (String → Except Err PyVal)) (timeout t0 : ℚ)
    (hwAll : ∀ n, env.writeOk n = true)
    (hne : ∀ out, possibleOut env out → rstrip out = out →
      ∃ v, transformApply transform out = Except.ok v ∧ v ≠ result) :
    ∀ fuel s r, setLoop env true cmd qry result transform timeout t0 fuel s = some r →
      ∃ s' l, r = Except.ok (false, s') ∧ timeout < s'.clock - t0 ∧
        s'.log = s.log ++ l ∧
        (cmd ≠ qry → l.count (Ev.write cmd) =
          l.count (Ev.sleep SleepSite.interLoop pause_between_loops) + 1) := by
  intro fuel
  induction fuel with
  | zero =>
    intro s r h
    rw [setLoop_zero] at h
    exact absurd h (by simp)
  | succ n ih =>
    intro s r h
    rw [setLoop_succ] at h
    cases ha : attemptSet env true cmd qry result transform s
    case error e =>
      obtain ⟨out, ho1, ho2, ht⟩ :=
        attempt_error_spec env cmd qry result transform s e hwAll ha
      obtain ⟨v, hv, -⟩ := hne out ho1 ho2
      rw [ht] at hv
      exact absurd hv (by simp)
    case ok p =>
      obtain ⟨b, s1⟩ := p
      obtain ⟨out, v, ho1, ho2, ht, hb, hck, -, -, l1, hl1, hm1⟩ :=
        attempt_ok_spec env cmd qry result transform s b s1 ha
      obtain ⟨v2, hv2, hv2ne⟩ := hne out ho1 ho2
      have hvv : v2 = v := by
        rw [ht] at hv2
        simpa using hv2.symm
      subst hvv
      have hbf : b = false := by
        rw [hb]
        simp [hv2ne]
      subst hbf
      rw [ha] at h
      dsimp only at h
      have hz1 : cmd ≠ qry → l1.count (Ev.write cmd) = 0 := by
        intro hcq
        refine List.count_eq_zero.mpr ?_
        intro hmem
        rcases hm1 _ hmem with he | ⟨r2, he⟩ | ⟨st, d, he, -⟩
        · exact hcq (by injection he)
        · exact absurd he (by simp)
        · exact absurd he (by simp)
      have hz2 : l1.count (Ev.sleep SleepSite.interLoop pause_between_loops) = 0 := by
        refine List.count_eq_zero.mpr ?_
        intro hmem
        rcases hm1 _ hmem with he | ⟨r2, he⟩ | ⟨st, d, he, hst⟩
        · exact absurd he (by simp)
        · exact absurd he (by simp)
        · have : SleepSite.interLoop = st := by
            injection he with h1 h2
          exact hst this.symm
      by_cases hc : s1.clock - t0 > timeout
      · rw [if_pos hc] at h
        obtain rfl : r = Except.ok (false, s1) := by simpa using h.symm
        refine ⟨s1, Ev.write cmd :: l1, rfl, hc, hl1, ?_⟩
        intro hcq
        simp [List.count_cons, hz1 hcq, hz2]
      · rw [if_neg hc] at h
        obtain ⟨s', l2, rfl, htm, hlog, hcnt⟩ :=
          ih (sleep SleepSite.interLoop pause_between_loops s1) r h
        refine ⟨s', (Ev.write cmd :: l1) ++
          (Ev.sleep SleepSite.interLoop pause_between_loops :: l2), rfl, htm, ?_, ?_⟩
        · rw [hlog, sleep_log, hl1]
          simp
        · intro hcq
          have h1 := hcnt hcq
          simp [List.count_append, List.count_cons, hz1 hcq, hz2, h1]

/-- An error surfacing from the loop was produced, unmodified, by one of
its attempts. -/
lemma loop_error_source (env : Env) (is_open : Bool) (cmd qry : String)
    (result : PyVal) (transform : Option (String → Except Err PyVal))
    (timeout t0 : ℚ) :
    ∀ fuel s e, setLoop env is_open cmd qry result transform timeout t0 fuel s =
        some (Except.error e) →
      ∃ s0, attemptSet env is_open cmd qry result transform s0 = Except.error e := by
  intro fuel
  induction fuel with
  | zero =>
    intro s e h
    rw [setLoop_zero] at h
    exact absurd h (by simp)
  | succ n ih =>
    intro s e h
    rw [setLoop_succ] at h
    cases ha : attemptSet env is_open cmd qry result transform s
    case error e2 =>
      rw [ha] at h
      obtain rfl : e2 = e := by simpa using h
      exact ⟨s, ha⟩
    case ok p =>
      obtain ⟨b, s1⟩ := p
      rw [ha] at h
      cases b
      case true =>
        exact absurd h (by simp)
      case false =>
        dsimp only at h
        by_cases hc : s1.clock - t0 > timeout
        · rw [if_pos hc] at h
          exact absurd h (by simp)
        · rw [if_neg hc] at h
          exact ih (sleep SleepSite.interLoop pause_between_loops s1) e h

/-- A run of the loop that returns a boolean wrote the command at least
once: the first attempt happens before the clock is ever consulted. -/
lemma loop_ok_count (env : Env) (cmd qry : String) (result : PyVal)
    (transform : Option (String → Except Err PyVal)) (timeout t0 : ℚ) :
    ∀ fuel s b s', setLoop env true cmd qry result transform timeout t0 fuel s =
        some (Except.ok (b, s')) →
      s.log.count (Ev.write cmd) + 1 ≤ s'.log.count (Ev.write cmd) := by
  intro fuel
  induction fuel with
  | zero =>
    intro s b s' h
    rw [setLoop_zero] at h
    exact absurd h (by simp)
  | succ n ih =>
    intro s b s' h
    rw [setLoop_succ] at h
    cases ha : attemptSet env true cmd qry result transform s
    case error e =>
      rw [ha] at h
      exact absurd h (by simp)
    case ok p =>
      obtain ⟨b1, s1⟩ := p
      obtain ⟨out, v, -, -, -, -, -, -, -, l1, hl1, -⟩ :=
        attempt_ok_spec env cmd qry result transform s b1 s1 ha
      have hstep : s.log.count (Ev.write cmd) + 1 ≤ s1.log.count (Ev.write cmd) := by
        rw [hl1]
        simp [List.count_append, List.count_cons]
      rw [ha] at h
      cases b1
      case true =>
        dsimp only at h
        obtain ⟨rfl, rfl⟩ : true = b ∧ s1 = s' := by simpa using h
        exact hstep
      case false =>
        dsimp only at h
        by_cases hc : s1.clock - t0 > timeout
        · rw [if_pos hc] at h
          obtain ⟨rfl, rfl⟩ : false = b ∧ s1 = s' := by simpa using h
          exact hstep
        · rw [if_neg hc] at h
          have hrec := ih (sleep SleepSite.interLoop pause_between_loops s1) b s' h
          rw [sleep_log] at hrec
          simp [List.count_append] at hrec
          omega

/-- Every rational is at most the cast of the toNat of its numerator. -/
lemma rat_le_num_toNat (t : ℚ) : t ≤ (t.num.toNat : ℚ) := by
  by_cases h : 0 < t
  · have hn : (0 : ℤ) ≤ t.num := by
      exact_mod_cast (Rat.num_pos.mpr h).le
    have h1 : ((t.num.toNat : ℤ) : ℚ) = (t.num : ℚ) := by
      rw [Int.toNat_of_nonneg hn]
    have h2 : t ≤ (t.num : ℚ) := by
      conv_lhs => rw [← Rat.num_div_den t]
      apply div_le_self
      · exact_mod_cast hn
      · have hd : (1 : ℕ) ≤ t.den := t.pos
        exact_mod_cast hd
    calc t ≤ (t.num : ℚ) := h2
      _ = ((t.num.toNat : ℤ) : ℚ) := h1.symm
      _ = (t.num.toNat : ℚ) := by push_cast; ring
  · push_neg at h
    calc t ≤ 0 := h
      _ ≤ (t.num.toNat : ℚ) := by positivity

/-- The verifier always returns an answer: the fuel bound built into
set_with_check is enough for the loop to reach a decision. -/
lemma set_with_check_total (env : Env) (is_open : Bool) (cmd qry : String)
    (result : PyVal) (transform : Option (String → Except Err PyVal))
    (timeout : ℚ) (s : DState) :
    ∃ r, set_with_check env is_open cmd qry result transform timeout s = some r := by
  cases is_open
  case false =>
    refine ⟨Except.error (Err.ioError "Communication to the instrument is closed"), ?_⟩
    rw [set_with_check_eq]
    exact setLoop_succ_error env false cmd qry result transform timeout s.clock _ s _
      (attempt_closed env cmd qry result transform s)
  case true =>
    cases h : setLoop env true cmd qry result transform timeout s.clock
        (40 * timeout.num.toNat + 1) s
    case some r =>
      exact ⟨r, by rw [set_with_check_eq]; exact h⟩
    case none =>
      exfalso
      have hb := loop_none_bound env cmd qry result transform timeout s.clock
        (40 * timeout.num.toNat) s h
      have hle := rat_le_num_toNat timeout
      rw [sub_self] at hb
      have hp : pause_between_set_and_query = 1 / 40 := rfl
      rw [hp] at hb
      push_cast at hb
      nlinarith [hb, hle]

/-- A first write that times out at the device surfaces as the
ValueError raised inside the write method. -/
lemma attempt_bad_write (env : Env) (cmd qry : String) (result : PyVal)
    (transform : Option (String → Except Err PyVal)) (s : DState)
    (hw : env.writeOk s.writes = false) :
    attemptSet env true cmd qry result transform s =
      Except.error
        (Err.valueError "Command timed out; most likely it is not a valid command") := by
  unfold attemptSet
  rw [write_bad env cmd s hw]

end VisaUsb

/-! ## The claims -/

/-- C2: when the transformed response to the first query already equals
the result, the verifier returns True after exactly one write of the
command and one query cycle: the final trace extends the initial one by
precisely one command write, the settle sleep, one query write and one
physical read, with no inter-loop sleep and no second command write. -/
theorem set_with_check_first_match_single_cycle (env : Env) (cmd qry : String)
    (result : PyVal) (transform : Option (String → Except Err PyVal))
    (timeout : ℚ) (s : DState) (r0 : String)
    (hw0 : env.writeOk s.writes = true)
    (hw1 : env.writeOk (s.writes + 1) = true)
    (hr : env.readResult s.reads = some r0)
    (hne : rstrip r0 ≠ "")
    (ht : VisaUsb.transformApply transform (rstrip r0) = Except.ok result) :
    VisaUsb.set_with_check env true cmd qry result transform timeout s =
      some (Except.ok (true,
        ⟨s.clock + pause_between_set_and_query, s.reads + 1, s.writes + 2,
          s.log ++ [Ev.write cmd,
            Ev.sleep SleepSite.settle pause_between_set_and_query,
            Ev.write qry, Ev.readAttempt (some r0)]⟩)) := by
  rw [VisaUsb.set_with_check_eq]
  exact VisaUsb.setLoop_succ_true env true cmd qry result transform timeout s.clock _ s _
    (VisaUsb.attempt_match_first env cmd qry result transform s r0 hw0 hw1 hr hne ht)

/-- Witness for C2: a device that immediately answers X to every read
verifies the expected raw string X in a single cycle. -/
theorem set_with_check_first_match_single_cycle_witness :
    VisaUsb.set_with_check ⟨fun _ => some "X", fun _ => true⟩ true "A" "Q"
      (PyVal.str "X") none 5 DState.init =
      some (Except.ok (true,
        ⟨DState.init.clock + pause_between_set_and_query, DState.init.reads + 1,
          DState.init.writes + 2,
          DState.init.log ++ [Ev.write "A",
            Ev.sleep SleepSite.settle pause_between_set_and_query,
            Ev.write "Q", Ev.readAttempt (some "X")]⟩)) :=
  set_with_check_first_match_single_cycle ⟨fun _ => some "X", fun _ => true⟩ "A" "Q"
    (PyVal.str "X") none 5 DState.init "X" rfl rfl rfl (by decide) (by decide)

/-- C5: when the first query of an attempt yields the empty string, the
verifier sleeps the fixed pause and re-issues the query exactly once
within the same attempt; if the transform of that second response equals
the result it returns True, with the trace showing exactly two query
writes in the single attempt. -/
theorem set_with_check_empty_retry_success (env : Env) (cmd qry : String)
    (result : PyVal) (transform : Option (String → Except Err PyVal))
    (timeout : ℚ) (s : DState) (e0 r1 : String)
    (hw0 : env.writeOk s.writes = true)
    (hw1 : env.writeOk (s.writes + 1) = true)
    (hw2 : env.writeOk (s.writes + 2) = true)
    (hr0 : env.readResult s.reads = some e0)
    (he : rstrip e0 = "")
    (hr1 : env.readResult (s.reads + 1) = some r1)
    (ht : VisaUsb.transformApply transform (rstrip r1) = Except.ok result) :
    VisaUsb.set_with_check env true cmd qry result transform timeout s =
      some (Except.ok (true,
        ⟨s.clock + pause_between_set_and_query + pause_between_loops,
          s.reads + 2, s.writes + 3,
          s.log ++ [Ev.write cmd,
            Ev.sleep SleepSite.settle pause_between_set_and_query,
            Ev.write qry, Ev.readAttempt (some e0),
            Ev.sleep SleepSite.emptyRetry pause_between_loops,
            Ev.write qry, Ev.readAttempt (some r1)]⟩)) := by
  rw [VisaUsb.set_with_check_eq]
  exact VisaUsb.setLoop_succ_true env true cmd qry result transform timeout s.clock _ s _
    (VisaUsb.attempt_empty_then_match env cmd qry result transform s e0 r1
      hw0 hw1 hw2 hr0 he hr1 ht)

/-- Witness for C5: a device that answers the empty string to the first
read and X to the second still verifies X thanks to the in-attempt
re-query. -/
theorem set_with_check_empty_retry_success_witness :
    VisaUsb.set_with_check ⟨fun n => if n = 0 then some "" else some "X",
        fun _ => true⟩ true "A" "Q" (PyVal.str "X") none 5 DState.init =
      some (Except.ok (true,
        ⟨DState.init.clock + pause_between_set_and_query + pause_between_loops,
          DState.init.reads + 2, DState.init.writes + 3,
          DState.init.log ++ [Ev.write "A",
            Ev.sleep SleepSite.settle pause_between_set_and_query,
            Ev.write "Q", Ev.readAttempt (some ""),
            Ev.sleep SleepSite.emptyRetry pause_between_loops,
            Ev.write "Q", Ev.readAttempt (some "X")]⟩)) :=
  set_with_check_empty_retry_success ⟨fun n => if n = 0 then some "" else some "X",
      fun _ => true⟩ "A" "Q" (PyVal.str "X") none 5 DState.init "" "X"
    rfl rfl rfl (by decide) (by decide) (by decide) (by decide)

/-- C8: the verifier always terminates with an answer: for every device
oracle, connection state, inputs and timeout, the loop reaches a match,
an error, or its own timeout decision within the built-in fuel bound. -/
theorem set_with_check_terminates (env : Env) (is_open : Bool) (cmd qry : String)
    (result : PyVal) (transform : Option (String → Except Err PyVal))
    (timeout : ℚ) (s : DState) :
    ∃ r, VisaUsb.set_with_check env is_open cmd qry result transform timeout s =
      some r :=
  VisaUsb.set_with_check_total env is_open cmd qry result transform timeout s

/-- C4: errors raised by the write and read layer are not caught inside
the verification loop: an error produced by the first attempt surfaces
to the caller unmodified, any error surfacing from the verifier was
produced unmodified by one of its attempts, a closed connection
surfaces as the IOError raised by write, and a device write timeout
surfaces as the ValueError raised by write; only the did-the-state-match
decision becomes a boolean. -/
theorem set_with_check_error_propagation (env : Env) (is_open : Bool)
    (cmd qry : String) (result : PyVal)
    (transform : Option (String → Except Err PyVal)) (timeout : ℚ)
    (s : DState) (e : Err) :
    (VisaUsb.attemptSet env is_open cmd qry result transform s = Except.error e →
      VisaUsb.set_with_check env is_open cmd qry result transform timeout s =
        some (Except.error e)) ∧
    (VisaUsb.set_with_check env is_open cmd qry result transform timeout s =
        some (Except.error e) →
      ∃ s0, VisaUsb.attemptSet env is_open cmd qry result transform s0 =
        Except.error e) ∧
    (is_open = false →
      VisaUsb.set_with_check env is_open cmd qry result transform timeout s =
        some (Except.error
          (Err.ioError "Communication to the instrument is closed"))) ∧
    (is_open = true → env.writeOk s.writes = false →
      VisaUsb.set_with_check env is_open cmd qry result transform timeout s =
        some (Except.error (Err.valueError
          "Command timed out; most likely it is not a valid command"))) := by
  refine ⟨?_, ?_, ?_, ?_⟩
  · intro ha
    rw [VisaUsb.set_with_check_eq]
    exact VisaUsb.setLoop_succ_error env is_open cmd qry result transform timeout
      s.clock _ s e ha
  · intro h
    rw [VisaUsb.set_with_check_eq] at h
    exact VisaUsb.loop_error_source env is_open cmd qry result transform timeout
      s.clock _ s e h
  · intro ho
    subst ho
    rw [VisaUsb.set_with_check_eq]
    exact VisaUsb.setLoop_succ_error env false cmd qry result transform timeout
      s.clock _ s _ (VisaUsb.attempt_closed env cmd qry result transform s)
  · intro ho hw
    subst ho
    rw [VisaUsb.set_with_check_eq]
    exact VisaUsb.setLoop_succ_error env true cmd qry result transform timeout
      s.clock _ s _ (VisaUsb.attempt_bad_write env cmd qry result transform s hw)

/-- Witness for C4: on a closed connection the verifier surfaces the
IOError of write; on a device whose writes time out it surfaces the
ValueError of write; and that surfaced ValueError is traceable to an
attempt. -/
theorem set_with_check_error_propagation_witness :
    VisaUsb.set_with_check ⟨fun _ => some "X", fun _ => true⟩ false "A" "Q"
        (PyVal.str "X") none 1 DState.init =
      some (Except.error
        (Err.ioError "Communication to the instrument is closed")) ∧
    VisaUsb.set_with_check ⟨fun _ => some "X", fun _ => false⟩ true "A" "Q"
        (PyVal.str "X") none 1 DState.init =
      some (Except.error (Err.valueError
        "Command timed out; most likely it is not a valid command")) ∧
    ∃ s0, VisaUsb.attemptSet ⟨fun _ => some "X", fun _ => false⟩ true "A" "Q"
        (PyVal.str "X") none s0 =
      Except.error (Err.valueError
        "Command timed out; most likely it is not a valid command") := by
  refine ⟨?_, ?_, ?_⟩
  · exact (set_with_check_error_propagation ⟨fun _ => some "X", fun _ => true⟩
      false "A" "Q" (PyVal.str "X") none 1 DState.init
      (Err.ioError "Communication to the instrument is closed")).2.2.1 rfl
  · exact (set_with_check_error_propagation ⟨fun _ => some "X", fun _ => false⟩
      true "A" "Q" (PyVal.str "X") none 1 DState.init
      (Err.valueError
        "Command timed out; most likely it is not a valid command")).2.2.2 rfl rfl
  · exact (set_with_check_error_propagation ⟨fun _ => some "X", fun _ => false⟩
      true "A" "Q" (PyVal.str "X") none 1 DState.init
      (Err.valueError
        "Command timed out; most likely it is not a valid command")).2.1
      (by decide)

/-- C6: the transform is applied to the response before the hard
equality comparison.  With the float transform, a device answering
3.300000 verifies the expected numeric value 3.3 (written here as the
exact rational 33/10, the value the float model gives both literals)
even though the raw string differs; with no transform the raw string is
compared directly, so the raw expected string 3.300000 verifies but the
string 3.3 does not. -/
theorem set_with_check_transform_before_compare :
    VisaUsb.set_with_check ⟨fun _ => some "3.300000", fun _ => true⟩ true "A" "Q"
        (PyVal.rat (33/10)) (some pyFloat) 5 DState.init =
      some (Except.ok (true,
        ⟨DState.init.clock + pause_between_set_and_query, DState.init.reads + 1,
          DState.init.writes + 2,
          DState.init.log ++ [Ev.write "A",
            Ev.sleep SleepSite.settle pause_between_set_and_query,
            Ev.write "Q", Ev.readAttempt (some "3.300000")]⟩)) ∧
    VisaUsb.set_with_check ⟨fun _ => some "3.300000", fun _ => true⟩ true "A" "Q"
        (PyVal.str "3.300000") none 5 DState.init =
      some (Except.ok (true,
        ⟨DState.init.clock + pause_between_set_and_query, DState.init.reads + 1,
          DState.init.writes + 2,
          DState.init.log ++ [Ev.write "A",
            Ev.sleep SleepSite.settle pause_between_set_and_query,
            Ev.write "Q", Ev.readAttempt (some "3.300000")]⟩)) ∧
    VisaUsb.set_with_check ⟨fun _ => some "3.300000", fun _ => true⟩ true "A" "Q"
        (PyVal.str "3.3") none 0 DState.init =
      some (Except.ok (false,
        ⟨DState.init.clock + pause_between_set_and_query, DState.init.reads + 1,
          DState.init.writes + 2,
          DState.init.log ++ [Ev.write "A",
            Ev.sleep SleepSite.settle pause_between_set_and_query,
            Ev.write "Q", Ev.readAttempt (some "3.300000")]⟩)) := by
  have hrs : rstrip "3.300000" = "3.300000" := by decide
  refine ⟨?_, ?_, ?_⟩
  · rw [VisaUsb.set_with_check_eq]
    have hpf : VisaUsb.transformApply (some pyFloat) (rstrip "3.300000") =
        Except.ok (PyVal.rat (33/10)) := by
      show pyFloat (rstrip "3.300000") = _
      rw [hrs]
      unfold pyFloat
      have h0 : parseDecimal "3.300000".data =
          some (((3 : ℕ) : ℚ) + ((300000 : ℕ) : ℚ) / ((10 : ℚ) ^ 6)) := rfl
      rw [h0]
      have h1 : ((3 : ℕ) : ℚ) + ((300000 : ℕ) : ℚ) / ((10 : ℚ) ^ 6) = 33/10 := by
        push_cast
        norm_num
      rw [h1]
    have ha := VisaUsb.attempt_match_first ⟨fun _ => some "3.300000", fun _ => true⟩
      "A" "Q" (PyVal.rat (33/10)) (some pyFloat) DState.init "3.300000"
      rfl rfl rfl (by decide) hpf
    exact VisaUsb.setLoop_succ_true _ _ _ _ _ _ _ _ _ _ _ ha
  · rw [VisaUsb.set_with_check_eq]
    have ha := VisaUsb.attempt_match_first ⟨fun _ => some "3.300000", fun _ => true⟩
      "A" "Q" (PyVal.str "3.300000") none DState.init "3.300000"
      rfl rfl rfl (by decide) (by rw [VisaUsb.transformApply, hrs])
    exact VisaUsb.setLoop_succ_true _ _ _ _ _ _ _ _ _ _ _ ha
  · rw [VisaUsb.set_with_check_eq]
    have ha := VisaUsb.attempt_first_outcome ⟨fun _ => some "3.300000", fun _ => true⟩
      "A" "Q" (PyVal.str "3.3") (PyVal.str "3.300000") none DState.init "3.300000"
      rfl rfl rfl (by decide) (by rw [VisaUsb.transformApply, hrs])
    rw [show decide (PyVal.str "3.300000" = PyVal.str "3.3") = false from by decide] at ha
    refine VisaUsb.setLoop_succ_false_stop _ _ _ _ _ _ _ _ _ _ _ ha ?_
    show DState.init.clock + pause_between_set_and_query - DState.init.clock > 0
    norm_num [DState.init, pause_between_set_and_query]

/-- C1: when the transform of every possible device response differs
from the expected result, the verifier returns False with the elapsed
wall-clock time strictly exceeding the timeout, and its trace shows one
write of the command per iteration: exactly one more command write than
inter-loop sleeps. -/
theorem set_with_check_never_match_times_out (env : Env) (cmd qry : String)
    (result : PyVal) (transform : Option (String → Except Err PyVal))
    (timeout : ℚ) (s : DState)
    (hwAll : ∀ n, env.writeOk n = true)
    (hcq : cmd ≠ qry)
    (hne : ∀ out, possibleOut env out → rstrip out = out →
      ∃ v, VisaUsb.transformApply transform out = Except.ok v ∧ v ≠ result) :
    ∃ s' l, VisaUsb.set_with_check env true cmd qry result transform timeout s =
        some (Except.ok (false, s')) ∧
      timeout < s'.clock - s.clock ∧
      s'.log = s.log ++ l ∧
      l.count (Ev.write cmd) =
        l.count (Ev.sleep SleepSite.interLoop pause_between_loops) + 1 := by
  obtain ⟨r, hr⟩ := VisaUsb.set_with_check_total env true cmd qry result transform
    timeout s
  rw [VisaUsb.set_with_check_eq] at hr
  obtain ⟨s', l, rfl, htm, hlog, hcnt⟩ := VisaUsb.loop_never_match env cmd qry result
    transform timeout s.clock hwAll hne _ s r hr
  exact ⟨s', l, by rw [VisaUsb.set_with_check_eq]; exact hr, htm, hlog, hcnt hcq⟩

/-- Witness for C1: a device stuck answering X never verifies the
expected Y, so the verifier times out with a timeout of half a second,
re-writing the command on every iteration. -/
theorem set_with_check_never_match_times_out_witness :
    ∃ s' l, VisaUsb.set_with_check ⟨fun _ => some "X", fun _ => true⟩ true "A" "Q"
        (PyVal.str "Y") none (1/2) DState.init = some (Except.ok (false, s')) ∧
      (1/2 : ℚ) < s'.clock - DState.init.clock ∧
      s'.log = DState.init.log ++ l ∧
      l.count (Ev.write "A") =
        l.count (Ev.sleep SleepSite.interLoop pause_between_loops) + 1 :=
  set_with_check_never_match_times_out _ "A" "Q" (PyVal.str "Y") none (1/2) DState.init
    (fun _ => rfl) (by decide)
    (fun out hpos _ => by
      refine ⟨PyVal.str out, rfl, ?_⟩
      rcases hpos with rfl | ⟨n, r2, hn, rfl⟩
      · decide
      · have hn2 : some "X" = some r2 := hn
        obtain rfl : "X" = r2 := by injection hn2
        decide)

/-- C3 counterexample: in the scenario of the claim the transport never
raises (every write succeeds and every read returns the empty string),
the device never matches, and the timeout is one second; still the call
does not return the boolean False: the float transform raises ValueError
on the empty string and that exception propagates. -/
theorem set_with_check_float_empty_raises_cex :
    VisaUsb.set_with_check ⟨fun _ => some "", fun _ => true⟩ true
      "SOURCE1:FREQUENCY 1000" "SOURCE1:FREQUENCY?" (PyVal.rat 1000) (some pyFloat) 1
      DState.init =
      some (Except.error (Err.valueError "could not convert string to float")) := by
  rw [VisaUsb.set_with_check_eq]
  have ha : VisaUsb.attemptSet ⟨fun _ => some "", fun _ => true⟩ true
      "SOURCE1:FREQUENCY 1000" "SOURCE1:FREQUENCY?" (PyVal.rat 1000) (some pyFloat)
      DState.init =
      Except.error (Err.valueError "could not convert string to float") := rfl
  exact VisaUsb.setLoop_succ_error _ _ _ _ _ _ _ _ _ _ _ ha

/-- C3 (amended): when the transport primitives do not raise and the
transform succeeds on every possible response, a failed verification
raises no exception: the call returns a boolean.  The amendment is
needed because a transform that raises, such as float on the empty
string, propagates its exception out of the verifier. -/
theorem set_with_check_total_transform_returns_bool (env : Env) (cmd qry : String)
    (result : PyVal) (transform : Option (String → Except Err PyVal))
    (timeout : ℚ) (s : DState)
    (hwAll : ∀ n, env.writeOk n = true)
    (htot : ∀ out, possibleOut env out → rstrip out = out →
      ∃ v, VisaUsb.transformApply transform out = Except.ok v) :
    ∃ b s', VisaUsb.set_with_check env true cmd qry result transform timeout s =
      some (Except.ok (b, s')) := by
  obtain ⟨r, hr⟩ := VisaUsb.set_with_check_total env true cmd qry result transform
    timeout s
  cases r
  case error e =>
    rw [VisaUsb.set_with_check_eq] at hr
    obtain ⟨s0, ha⟩ := VisaUsb.loop_error_source env true cmd qry result transform
      timeout s.clock _ s e hr
    obtain ⟨out, ho1, ho2, ht⟩ := VisaUsb.attempt_error_spec env cmd qry result
      transform s0 e hwAll ha
    obtain ⟨v, hv⟩ := htot out ho1 ho2
    rw [ht] at hv
    exact absurd hv (by simp)
  case ok p =>
    obtain ⟨b, s'⟩ := p
    exact ⟨b, s', hr⟩

/-- Witness for the amended C3: with no transform and a device that
never matches, the verifier still returns a boolean. -/
theorem set_with_check_total_transform_returns_bool_witness :
    ∃ b s', VisaUsb.set_with_check ⟨fun _ => some "X", fun _ => true⟩ true "A" "Q"
      (PyVal.str "Y") none (1/2) DState.init = some (Except.ok (b, s')) :=
  set_with_check_total_transform_returns_bool _ "A" "Q" (PyVal.str "Y") none (1/2)
    DState.init (fun _ => rfl) (fun out _ _ => ⟨PyVal.str out, rfl⟩)

/-- C7: on a device already in the target state, two successive calls of
the verifier both return True, and each call unconditionally re-writes
the command and issues the query once, as the two trace deltas show: the
routine is never a no-op. -/
theorem set_with_check_idempotent_on_ready_device (env : Env) (cmd qry : String)
    (result : PyVal) (transform : Option (String → Except Err PyVal))
    (timeout : ℚ) (s : DState) (r0 r1 : String)
    (hw0 : env.writeOk s.writes = true)
    (hw1 : env.writeOk (s.writes + 1) = true)
    (hw2 : env.writeOk (s.writes + 2) = true)
    (hw3 : env.writeOk (s.writes + 3) = true)
    (hr0 : env.readResult s.reads = some r0)
    (hne0 : rstrip r0 ≠ "")
    (ht0 : VisaUsb.transformApply transform (rstrip r0) = Except.ok result)
    (hr1 : env.readResult (s.reads + 1) = some r1)
    (hne1 : rstrip r1 ≠ "")
    (ht1 : VisaUsb.transformApply transform (rstrip r1) = Except.ok result) :
    ∃ s1 s2, VisaUsb.set_with_check env true cmd qry result transform timeout s =
        some (Except.ok (true, s1)) ∧
      VisaUsb.set_with_check env true cmd qry result transform timeout s1 =
        some (Except.ok (true, s2)) ∧
      s1.log = s.log ++ [Ev.write cmd,
        Ev.sleep SleepSite.settle pause_between_set_and_query,
        Ev.write qry, Ev.readAttempt (some r0)] ∧
      s2.log = s1.log ++ [Ev.write cmd,
        Ev.sleep SleepSite.settle pause_between_set_and_query,
        Ev.write qry, Ev.readAttempt (some r1)] := by
  have ha1 := VisaUsb.attempt_match_first env cmd qry result transform s r0
    hw0 hw1 hr0 hne0 ht0
  have ha2 := VisaUsb.attempt_match_first env cmd qry result transform
    ⟨s.clock + pause_between_set_and_query, s.reads + 1, s.writes + 2,
      s.log ++ [Ev.write cmd, Ev.sleep SleepSite.settle pause_between_set_and_query,
        Ev.write qry, Ev.readAttempt (some r0)]⟩ r1 hw2 hw3 hr1 hne1 ht1
  refine ⟨⟨s.clock + pause_between_set_and_query, s.reads + 1, s.writes + 2,
      s.log ++ [Ev.write cmd, Ev.sleep SleepSite.settle pause_between_set_and_query,
        Ev.write qry, Ev.readAttempt (some r0)]⟩,
    ⟨s.clock + pause_between_set_and_query + pause_between_set_and_query,
      s.reads + 2, s.writes + 4,
      (s.log ++ [Ev.write cmd, Ev.sleep SleepSite.settle pause_between_set_and_query,
        Ev.write qry, Ev.readAttempt (some r0)]) ++
        [Ev.write cmd, Ev.sleep SleepSite.settle pause_between_set_and_query,
          Ev.write qry, Ev.readAttempt (some r1)]⟩, ?_, ?_, ?_, ?_⟩
  · rw [VisaUsb.set_with_check_eq]
    exact VisaUsb.setLoop_succ_true _ _ _ _ _ _ _ _ _ _ _ ha1
  · rw [VisaUsb.set_with_check_eq]
    exact VisaUsb.setLoop_succ_true _ _ _ _ _ _ _ _ _ _ _ ha2
  · rfl
  · rfl

/-- Witness for C7: a device permanently answering X verifies the raw
string X twice in a row, writing the command once per call. -/
theorem set_with_check_idempotent_on_ready_device_witness :
    ∃ s1 s2, VisaUsb.set_with_check ⟨fun _ => some "X", fun _ => true⟩ true "A" "Q"
        (PyVal.str "X") none 5 DState.init = some (Except.ok (true, s1)) ∧
      VisaUsb.set_with_check ⟨fun _ => some "X", fun _ => true⟩ true "A" "Q"
        (PyVal.str "X") none 5 s1 = some (Except.ok (true, s2)) ∧
      s1.log = DState.init.log ++ [Ev.write "A",
        Ev.sleep SleepSite.settle pause_between_set_and_query,
        Ev.write "Q", Ev.readAttempt (some "X")] ∧
      s2.log = s1.log ++ [Ev.write "A",
        Ev.sleep SleepSite.settle pause_between_set_and_query,
        Ev.write "Q", Ev.readAttempt (some "X")] :=
  set_with_check_idempotent_on_ready_device _ "A" "Q" (PyVal.str "X") none 5
    DState.init "X" "X" rfl rfl rfl rfl rfl (by decide) (by decide) rfl
    (by decide) (by decide)

/-- C9: every string that query hands back is already rstripped of
trailing whitespace; a silent device makes read sleep the fixed retry
pause and retry exactly once, returning the empty string without
raising; one attempt of the verifier performs at most four physical
reads; and an expected result string ending in whitespace can never
compare equal. -/
theorem read_query_strip_and_retry (env : Env) (q cmd qry : String)
    (result : PyVal) (transform : Option (String → Except Err PyVal))
    (sq s sa : DState) (out wsr : String) (s' sr s2 : DState) (b b2 : Bool) :
    (VisaUsb.query env true q sq = Except.ok (out, s') → rstrip out = out) ∧
    (env.readResult s.reads = none → env.readResult (s.reads + 1) = none →
      VisaUsb.read env true s = Except.ok ("",
        ⟨s.clock + pause_between_tries, s.reads + 2, s.writes,
          s.log ++ [Ev.readAttempt none,
            Ev.sleep SleepSite.readRetry pause_between_tries,
            Ev.readAttempt none]⟩)) ∧
    (VisaUsb.attemptSet env true cmd qry result transform sa = Except.ok (b, sr) →
      sr.reads ≤ sa.reads + 4) ∧
    (rstrip wsr ≠ wsr →
      VisaUsb.attemptSet env true cmd qry (PyVal.str wsr) none sa =
        Except.ok (b2, s2) →
      b2 = false) := by
  refine ⟨?_, ?_, ?_, ?_⟩
  · intro h
    exact (VisaUsb.query_ok_spec env q sq out s' h).2.1
  · intro h0 h1
    exact VisaUsb.read_none_none env s h0 h1
  · intro h
    obtain ⟨o2, v, -, -, -, -, -, -, hre, -, -, -⟩ :=
      VisaUsb.attempt_ok_spec env cmd qry result transform sa b sr h
    exact hre
  · intro hws h
    obtain ⟨o2, v, -, hfix, htr, hb, -, -, -, -, -, -⟩ :=
      VisaUsb.attempt_ok_spec env cmd qry (PyVal.str wsr) none sa b2 s2 h
    have hv : PyVal.str o2 = v := by
      simpa [VisaUsb.transformApply] using htr
    rw [hb]
    apply decide_eq_false
    intro heq
    apply hws
    have ho : o2 = wsr := by
      have h3 := hv.trans heq
      injection h3
    rw [← ho]
    exact hfix

/-- Witness for C9: a device answering X with a trailing newline yields
the stripped X from query; a fully silent device yields the empty string
after one retried read; a device needing the empty-response retry and a
read retry uses four physical reads in one successful attempt; and an
expected string with a trailing blank compares unequal. -/
theorem read_query_strip_and_retry_witness :
    rstrip "X" = "X" ∧
    VisaUsb.read ⟨fun _ => none, fun _ => true⟩ true DState.init = Except.ok ("",
      ⟨DState.init.clock + pause_between_tries, DState.init.reads + 2,
        DState.init.writes,
        DState.init.log ++ [Ev.readAttempt none,
          Ev.sleep SleepSite.readRetry pause_between_tries,
          Ev.readAttempt none]⟩) ∧
    (⟨DState.init.clock + pause_between_set_and_query, DState.init.reads + 1,
        DState.init.writes + 2,
        DState.init.log ++ [Ev.write "A",
          Ev.sleep SleepSite.settle pause_between_set_and_query,
          Ev.write "Q", Ev.readAttempt (some "X")]⟩ : DState).reads ≤
      DState.init.reads + 4 ∧
    (false : Bool) = false := by
  refine ⟨?_, ?_, ?_, ?_⟩
  · exact (read_query_strip_and_retry ⟨fun _ => some "X\n", fun _ => true⟩ "Q" "A" "Q"
      (PyVal.str "X") none DState.init DState.init DState.init "X" "Y "
      ⟨DState.init.clock, DState.init.reads + 1, DState.init.writes + 1,
        DState.init.log ++ [Ev.write "Q", Ev.readAttempt (some "X\n")]⟩
      DState.init DState.init true false).1 rfl
  · exact (read_query_strip_and_retry ⟨fun _ => none, fun _ => true⟩ "Q" "A" "Q"
      (PyVal.str "X") none DState.init DState.init DState.init "X" "Y "
      DState.init DState.init DState.init true false).2.1 rfl rfl
  · exact (read_query_strip_and_retry ⟨fun _ => some "X", fun _ => true⟩ "Q" "A" "Q"
      (PyVal.str "X") none DState.init DState.init DState.init "X" "Y "
      DState.init
      ⟨DState.init.clock + pause_between_set_and_query, DState.init.reads + 1,
        DState.init.writes + 2,
        DState.init.log ++ [Ev.write "A",
          Ev.sleep SleepSite.settle pause_between_set_and_query,
          Ev.write "Q", Ev.readAttempt (some "X")]⟩
      DState.init true false).2.2.1 rfl
  · exact (read_query_strip_and_retry ⟨fun _ => some "7 ", fun _ => true⟩ "Q" "A" "Q"
      (PyVal.str "7 ") none DState.init DState.init DState.init "X" "7 "
      DState.init DState.init
      ⟨DState.init.clock + pause_between_set_and_query, DState.init.reads + 1,
        DState.init.writes + 2,
        DState.init.log ++ [Ev.write "A",
          Ev.sleep SleepSite.settle pause_between_set_and_query,
          Ev.write "Q", Ev.readAttempt (some "7 ")]⟩
      true false).2.2.2 (by decide) rfl

/-- C10: the verifier performs a complete write, settle, query, compare
cycle before ever consulting the clock: a first-attempt match returns
True even when the timeout is nonpositive, and every call that returns a
boolean has written the command to the device at least once. -/
theorem set_with_check_first_cycle_before_clock (env : Env) (cmd qry : String)
    (result : PyVal) (transform : Option (String → Except Err PyVal))
    (timeout : ℚ) (s : DState) (r0 : String) :
    (timeout ≤ 0 →
      env.writeOk s.writes = true → env.writeOk (s.writes + 1) = true →
      env.readResult s.reads = some r0 → rstrip r0 ≠ "" →
      VisaUsb.transformApply transform (rstrip r0) = Except.ok result →
      VisaUsb.set_with_check env true cmd qry result transform timeout s =
        some (Except.ok (true,
          ⟨s.clock + pause_between_set_and_query, s.reads + 1, s.writes + 2,
            s.log ++ [Ev.write cmd,
              Ev.sleep SleepSite.settle pause_between_set_and_query,
              Ev.write qry, Ev.readAttempt (some r0)]⟩))) ∧
    (∀ b s', VisaUsb.set_with_check env true cmd qry result transform timeout s =
        some (Except.ok (b, s')) →
      s.log.count (Ev.write cmd) + 1 ≤ s'.log.count (Ev.write cmd)) := by
  constructor
  · intro htm hw0 hw1 hr hne ht
    rw [VisaUsb.set_with_check_eq]
    exact VisaUsb.setLoop_succ_true _ _ _ _ _ _ _ _ _ _ _
      (VisaUsb.attempt_match_first env cmd qry result transform s r0 hw0 hw1 hr hne ht)
  · intro b s' h
    rw [VisaUsb.set_with_check_eq] at h
    exact VisaUsb.loop_ok_count env cmd qry result transform timeout s.clock _ s b s' h

/-- Witness for C10: with a timeout of zero the verifier still verifies
an immediately-correct device, and the run leaves one more command write
in the trace than it started with. -/
theorem set_with_check_first_cycle_before_clock_witness :
    VisaUsb.set_with_check ⟨fun _ => some "X", fun _ => true⟩ true "A" "Q"
        (PyVal.str "X") none 0 DState.init =
      some (Except.ok (true,
        ⟨DState.init.clock + pause_between_set_and_query, DState.init.reads + 1,
          DState.init.writes + 2,
          DState.init.log ++ [Ev.write "A",
            Ev.sleep SleepSite.settle pause_between_set_and_query,
            Ev.write "Q", Ev.readAttempt (some "X")]⟩)) ∧
    DState.init.log.count (Ev.write "A") + 1 ≤
      (⟨DState.init.clock + pause_between_set_and_query, DState.init.reads + 1,
          DState.init.writes + 2,
          DState.init.log ++ [Ev.write "A",
            Ev.sleep SleepSite.settle pause_between_set_and_query,
            Ev.write "Q", Ev.readAttempt (some "X")]⟩ : DState).log.count
        (Ev.write "A") := by
  constructor
  · exact (set_with_check_first_cycle_before_clock ⟨fun _ => some "X", fun _ => true⟩
      "A" "Q" (PyVal.str "X") none 0 DState.init "X").1 (le_refl 0)
      rfl rfl rfl (by decide) (by decide)
  · exact (set_with_check_first_cycle_before_clock ⟨fun _ => some "X", fun _ => true⟩
      "A" "Q" (PyVal.str "X") none 0 DState.init "X").2 true
      ⟨DState.init.clock + pause_between_set_and_query, DState.init.reads + 1,
        DState.init.writes + 2,
        DState.init.log ++ [Ev.write "A",
          Ev.sleep SleepSite.settle pause_between_set_and_query,
          Ev.write "Q", Ev.readAttempt (some "X")]⟩ (by
        rw [VisaUsb.set_with_check_eq]
        exact VisaUsb.setLoop_succ_true _ _ _ _ _ _ _ _ _ _ _
          (VisaUsb.attempt_match_first _ "A" "Q" (PyVal.str "X") none DState.init "X"
            rfl rfl rfl (by decide) (by decide)))

end LabChat
